import Mathlib

/-!
Verification of the coordinate algebra and tile-map construction of
bevy-fast-tilemap.  The construction algorithm is embedded from
src/bundle.rs (FastTileMapDescriptor::spawn).  The pure projection
algebra (map_to_world, world_to_map) and the tile-buffer indexer live in
the crate's map.rs, which is not part of the provided sources; those are
modelled from the specification, as marked on each definition.
Scalars are modelled as exact rationals: the algorithms use only field
operations and componentwise min/max, so every identity proved here is
exact where the specification asks for equality within floating-point
epsilon.
-/

/-- A 2-component vector of rational scalars, modelling glam's Vec2. -/
structure Vec2 where
  x : ℚ
  y : ℚ
deriving DecidableEq

instance : Add Vec2 := ⟨fun a b => ⟨a.x + b.x, a.y + b.y⟩⟩

instance : Sub Vec2 := ⟨fun a b => ⟨a.x - b.x, a.y - b.y⟩⟩

instance : Neg Vec2 := ⟨fun a => ⟨-a.x, -a.y⟩⟩

/-- Componentwise product, as glam's Mul for Vec2. -/
instance : Mul Vec2 := ⟨fun a b => ⟨a.x * b.x, a.y * b.y⟩⟩

/-- Componentwise quotient, as glam's Div for Vec2. -/
instance : Div Vec2 := ⟨fun a b => ⟨a.x / b.x, a.y / b.y⟩⟩

/-- Componentwise minimum, as glam's Vec2::min. -/
def Vec2.vmin (a b : Vec2) : Vec2 := ⟨min a.x b.x, min a.y b.y⟩

/-- Componentwise maximum, as glam's Vec2::max. -/
def Vec2.vmax (a b : Vec2) : Vec2 := ⟨max a.x b.x, max a.y b.y⟩

@[ext] theorem Vec2.ext2 {a b : Vec2} (hx : a.x = b.x) (hy : a.y = b.y) : a = b := by
  cases a; cases b; cases hx; cases hy; rfl

@[simp] theorem Vec2.add_x (a b : Vec2) : (a + b).x = a.x + b.x := rfl

@[simp] theorem Vec2.add_y (a b : Vec2) : (a + b).y = a.y + b.y := rfl

@[simp] theorem Vec2.sub_x (a b : Vec2) : (a - b).x = a.x - b.x := rfl

@[simp] theorem Vec2.sub_y (a b : Vec2) : (a - b).y = a.y - b.y := rfl

@[simp] theorem Vec2.neg_x (a : Vec2) : (-a).x = -a.x := rfl

@[simp] theorem Vec2.neg_y (a : Vec2) : (-a).y = -a.y := rfl

@[simp] theorem Vec2.mul_x (a b : Vec2) : (a * b).x = a.x * b.x := rfl

@[simp] theorem Vec2.mul_y (a b : Vec2) : (a * b).y = a.y * b.y := rfl

@[simp] theorem Vec2.div_x (a b : Vec2) : (a / b).x = a.x / b.x := rfl

@[simp] theorem Vec2.div_y (a b : Vec2) : (a / b).y = a.y / b.y := rfl

@[simp] theorem Vec2.vmin_x (a b : Vec2) : (a.vmin b).x = min a.x b.x := rfl

@[simp] theorem Vec2.vmin_y (a b : Vec2) : (a.vmin b).y = min a.y b.y := rfl

@[simp] theorem Vec2.vmax_x (a b : Vec2) : (a.vmax b).x = max a.x b.x := rfl

@[simp] theorem Vec2.vmax_y (a b : Vec2) : (a.vmax b).y = max a.y b.y := rfl

/-- A 2-component vector of integers, modelling glam's IVec2. -/
structure IVec2 where
  x : ℤ
  y : ℤ
deriving DecidableEq

/-- A column-major 2x2 matrix, modelling glam's Mat2 (mat2 takes the two columns). -/
structure Mat2 where
  x_axis : Vec2
  y_axis : Vec2
deriving DecidableEq

/-- Matrix-vector product: glam computes m * v = x_axis * v.x + y_axis * v.y. -/
def Mat2.mulVec (m : Mat2) (v : Vec2) : Vec2 :=
  ⟨m.x_axis.x * v.x + m.y_axis.x * v.y, m.x_axis.y * v.x + m.y_axis.y * v.y⟩

/-- Determinant of a 2x2 matrix, as glam's Mat2::determinant. -/
def Mat2.det (m : Mat2) : ℚ :=
  m.x_axis.x * m.y_axis.y - m.x_axis.y * m.y_axis.x

/-- Unchecked matrix inverse, as glam's Mat2::inverse: the adjugate scaled by the
reciprocal determinant, with no singularity check (glam divides regardless;
in this exact model 1/0 = 0). -/
def Mat2.inverse (m : Mat2) : Mat2 :=
  let invDet := 1 / m.det
  ⟨⟨m.y_axis.y * invDet, -(m.x_axis.y) * invDet⟩,
   ⟨-(m.y_axis.x) * invDet, m.x_axis.x * invDet⟩⟩

@[simp] theorem Mat2.mulVec_x (m : Mat2) (v : Vec2) :
    (m.mulVec v).x = m.x_axis.x * v.x + m.y_axis.x * v.y := rfl

@[simp] theorem Mat2.mulVec_y (m : Mat2) (v : Vec2) :
    (m.mulVec v).y = m.x_axis.y * v.x + m.y_axis.y * v.y := rfl

/-- The map aggregate, embedded from the Map component used by
FastTileMapDescriptor::spawn in src/bundle.rs.  The two texture handles of the
Rust struct are represented by the contents of the exclusively owned tile-index
storage (map_texture, one unsigned 16-bit cell per grid position); the shared
atlas handle carries no data relevant to the verified claims and is omitted. -/
structure Map where
  size : IVec2
  tile_size : Vec2
  map_texture : List ℕ
  ready : Bool
  projection : Mat2
  inverse_projection : Mat2
  world_offset : Vec2
  tile_anchor_point : Vec2
deriving DecidableEq

/-- Modelled from the spec: Map::map_to_world from the crate's map.rs, which is
absent from the provided sources (sec. 4.1): applies the projection to the
displacement (grid_coord - tile_anchor_point) * tile_size, then adds
world_offset. -/
def Map.map_to_world (m : Map) (g : Vec2) : Vec2 :=
  m.projection.mulVec ((g - m.tile_anchor_point) * m.tile_size) + m.world_offset

/-- Modelled from the spec: Map::world_to_map from the crate's map.rs, which is
absent from the provided sources (sec. 4.1): applies the cached
inverse_projection to (world_coord - world_offset); the spec's stated output,
fractional grid coordinates satisfying the round-trip contract, additionally
requires undoing the tile_size scaling and restoring the anchor, so the
inverse-projected displacement is divided componentwise by tile_size and
tile_anchor_point is added back. -/
def Map.world_to_map (m : Map) (w : Vec2) : Vec2 :=
  m.inverse_projection.mulVec (w - m.world_offset) / m.tile_size + m.tile_anchor_point

/-- Descriptor for creating a fast tilemap bundle, from src/bundle.rs.  The
atlas handle and the host-engine Transform carry no data relevant to the
verified claims and are omitted. -/
structure FastTileMapDescriptor where
  map_size : IVec2
  tile_size : Vec2
  projection : Mat2
  tile_anchor_point : Vec2
deriving DecidableEq

/-- FastTileMapDescriptor::spawn from src/bundle.rs, returning the spawned Map
together with the size of the quad mesh it creates.  Mirrors the source step
by step: allocate the zero-filled R16Uint tile-index texture of
map_size.x * map_size.y cells, compute the unchecked projection inverse, build
the map with world_offset = 0, fold componentwise min/max of map_to_world over
the remaining three grid corners starting from the projected corner (0,0), set
the quad size to high - low and the corrected world_offset to
(-0.5, -0.5) * size - low.  (The byte-buffer length of the source is
(map_size.x * map_size.y) as usize cells; the cast agrees with Int.toNat for
the nonnegative products considered in the theorems below.) -/
def FastTileMapDescriptor.spawn (d : FastTileMapDescriptor) : Map × Vec2 :=
  let projection := d.projection
  let inverse_projection := projection.inverse
  let world_offset : Vec2 := ⟨0, 0⟩
  let map : Map :=
    { size := d.map_size
      tile_size := d.tile_size
      map_texture := List.replicate (d.map_size.x * d.map_size.y).toNat 0
      ready := false
      projection := projection
      inverse_projection := inverse_projection
      world_offset := world_offset
      tile_anchor_point := d.tile_anchor_point }
  let low0 := map.map_to_world ⟨0, 0⟩
  let corners : List Vec2 :=
    [⟨(d.map_size.x : ℚ), 0⟩, ⟨0, (d.map_size.y : ℚ)⟩,
     ⟨(d.map_size.x : ℚ), (d.map_size.y : ℚ)⟩]
  let lh := corners.foldl
    (fun lh c => (lh.1.vmin (map.map_to_world c), lh.2.vmax (map.map_to_world c)))
    (low0, low0)
  let size := lh.2 - lh.1
  ({ map with world_offset := (⟨-(1/2), -(1/2)⟩ : Vec2) * size - lh.1 }, size)

/-- The intermediate map built by spawn before the offset correction:
identical to the spawned map except that world_offset is still 0. -/
def FastTileMapDescriptor.preMap (d : FastTileMapDescriptor) : Map :=
  { size := d.map_size
    tile_size := d.tile_size
    map_texture := List.replicate (d.map_size.x * d.map_size.y).toNat 0
    ready := false
    projection := d.projection
    inverse_projection := d.projection.inverse
    world_offset := ⟨0, 0⟩
    tile_anchor_point := d.tile_anchor_point }

/-- Projection of the grid corner (0,0) under world_offset = 0. -/
def FastTileMapDescriptor.corner00 (d : FastTileMapDescriptor) : Vec2 :=
  d.preMap.map_to_world ⟨0, 0⟩

/-- Projection of the grid corner (size.x,0) under world_offset = 0. -/
def FastTileMapDescriptor.corner10 (d : FastTileMapDescriptor) : Vec2 :=
  d.preMap.map_to_world ⟨(d.map_size.x : ℚ), 0⟩

/-- Projection of the grid corner (0,size.y) under world_offset = 0. -/
def FastTileMapDescriptor.corner01 (d : FastTileMapDescriptor) : Vec2 :=
  d.preMap.map_to_world ⟨0, (d.map_size.y : ℚ)⟩

/-- Projection of the grid corner (size.x,size.y) under world_offset = 0. -/
def FastTileMapDescriptor.corner11 (d : FastTileMapDescriptor) : Vec2 :=
  d.preMap.map_to_world ⟨(d.map_size.x : ℚ), (d.map_size.y : ℚ)⟩

/-- The componentwise minimum accumulated by spawn's corner loop, in fold order. -/
def FastTileMapDescriptor.cornerLow (d : FastTileMapDescriptor) : Vec2 :=
  ((d.corner00.vmin d.corner10).vmin d.corner01).vmin d.corner11

/-- The componentwise maximum accumulated by spawn's corner loop, in fold order. -/
def FastTileMapDescriptor.cornerHigh (d : FastTileMapDescriptor) : Vec2 :=
  ((d.corner00.vmax d.corner10).vmax d.corner01).vmax d.corner11

theorem spawn_eval (d : FastTileMapDescriptor) :
    d.spawn =
      ({ d.preMap with
          world_offset :=
            (⟨-(1/2), -(1/2)⟩ : Vec2) * (d.cornerHigh - d.cornerLow) - d.cornerLow },
        d.cornerHigh - d.cornerLow) := rfl

theorem spawn_world_offset (d : FastTileMapDescriptor) :
    d.spawn.1.world_offset =
      (⟨-(1/2), -(1/2)⟩ : Vec2) * (d.cornerHigh - d.cornerLow) - d.cornerLow := rfl

theorem spawn_quad (d : FastTileMapDescriptor) :
    d.spawn.2 = d.cornerHigh - d.cornerLow := rfl

theorem spawn_size (d : FastTileMapDescriptor) : d.spawn.1.size = d.map_size := rfl

theorem spawn_ready (d : FastTileMapDescriptor) : d.spawn.1.ready = false := rfl

theorem spawn_map_texture (d : FastTileMapDescriptor) :
    d.spawn.1.map_texture = List.replicate (d.map_size.x * d.map_size.y).toNat 0 := rfl

theorem spawn_projection (d : FastTileMapDescriptor) :
    d.spawn.1.projection = d.projection := rfl

theorem spawn_inverse_projection (d : FastTileMapDescriptor) :
    d.spawn.1.inverse_projection = d.projection.inverse := rfl

theorem spawn_tile_size (d : FastTileMapDescriptor) :
    d.spawn.1.tile_size = d.tile_size := rfl

theorem spawn_tile_anchor_point (d : FastTileMapDescriptor) :
    d.spawn.1.tile_anchor_point = d.tile_anchor_point := rfl

theorem spawn_map_to_world (d : FastTileMapDescriptor) (g : Vec2) :
    d.spawn.1.map_to_world g = d.preMap.map_to_world g + d.spawn.1.world_offset := by
  ext <;> simp [Map.map_to_world, spawn_eval, FastTileMapDescriptor.preMap]

/-- The bounding low corner as the specification describes it: the componentwise
minimum over the four projected grid corners (projected via map_to_world with
world_offset = 0). -/
def specLow (d : FastTileMapDescriptor) : Vec2 :=
  d.corner00.vmin (d.corner10.vmin (d.corner01.vmin d.corner11))

/-- The bounding high corner as the specification describes it: the componentwise
maximum over the four projected grid corners (projected via map_to_world with
world_offset = 0). -/
def specHigh (d : FastTileMapDescriptor) : Vec2 :=
  d.corner00.vmax (d.corner10.vmax (d.corner01.vmax d.corner11))

theorem cornerLow_eq_specLow (d : FastTileMapDescriptor) : d.cornerLow = specLow d := by
  ext <;> simp [FastTileMapDescriptor.cornerLow, specLow, min_assoc]

theorem cornerHigh_eq_specHigh (d : FastTileMapDescriptor) : d.cornerHigh = specHigh d := by
  ext <;> simp [FastTileMapDescriptor.cornerHigh, specHigh, max_assoc]

/-- Claim C1: at construction, FastTileMapDescriptor::spawn computes the bounding
geometry by the exact four-corner algorithm: with world_offset = 0 it projects
the four grid corners via map_to_world, takes the componentwise minimum low and
maximum high over the four projected points, gives the spawned mesh quad the
exact dimensions high - low, and sets world_offset to -0.5 * (high - low) - low. -/
theorem spawn_four_corner_bounding_geometry (d : FastTileMapDescriptor) :
    d.spawn.2 = specHigh d - specLow d ∧
    d.spawn.1.world_offset =
      (⟨-(1/2), -(1/2)⟩ : Vec2) * (specHigh d - specLow d) - specLow d := by
  rw [spawn_quad, spawn_world_offset, cornerLow_eq_specLow, cornerHigh_eq_specHigh]
  exact ⟨rfl, rfl⟩

/-- Claim C2: after construction the world-space bounding rectangle of the four
projected grid corners, the componentwise interval from cornerLow + world_offset
to cornerHigh + world_offset, is centered exactly at the map's local origin
(0,0); the rational model makes the specified equality within floating-point
epsilon exact. -/
theorem spawn_bounding_rectangle_centered (d : FastTileMapDescriptor)
    (h : d.projection.det ≠ 0) :
    (⟨1/2, 1/2⟩ : Vec2) *
        ((d.cornerLow + d.spawn.1.world_offset) + (d.cornerHigh + d.spawn.1.world_offset)) =
      (⟨0, 0⟩ : Vec2) := by
  rw [spawn_world_offset]
  ext <;> simp <;> ring

/-- The spawned map of the witness descriptor: identity-like orthogonal
projection, 4 x 3 grid of 16 x 16 tiles, zero anchor. -/
def dOrtho : FastTileMapDescriptor :=
  { map_size := ⟨4, 3⟩
    tile_size := ⟨16, 16⟩
    projection := ⟨⟨1, 0⟩, ⟨0, -1⟩⟩
    tile_anchor_point := ⟨0, 0⟩ }

theorem spawn_bounding_rectangle_centered_witness :
    dOrtho.projection.det ≠ 0 ∧
      (⟨1/2, 1/2⟩ : Vec2) *
          ((dOrtho.cornerLow + dOrtho.spawn.1.world_offset) +
            (dOrtho.cornerHigh + dOrtho.spawn.1.world_offset)) =
        (⟨0, 0⟩ : Vec2) :=
  ⟨by norm_num [dOrtho, Mat2.det],
    spawn_bounding_rectangle_centered dOrtho (by norm_num [dOrtho, Mat2.det])⟩

theorem min4_max4_sum (p q r s : ℚ) (h : p + s = q + r) :
    min (min (min p q) r) s + max (max (max p q) r) s = p + s := by
  simp only [min_def, max_def]
  split_ifs <;> linarith

theorem corner_parallelogram (d : FastTileMapDescriptor) :
    d.corner00 + d.corner11 = d.corner10 + d.corner01 := by
  ext <;>
    simp [FastTileMapDescriptor.corner00, FastTileMapDescriptor.corner10,
      FastTileMapDescriptor.corner01, FastTileMapDescriptor.corner11,
      FastTileMapDescriptor.preMap, Map.map_to_world] <;>
    ring

theorem cornerLow_add_cornerHigh (d : FastTileMapDescriptor) :
    d.cornerLow + d.cornerHigh = d.corner00 + d.corner11 := by
  have hx := congrArg Vec2.x (corner_parallelogram d)
  have hy := congrArg Vec2.y (corner_parallelogram d)
  simp only [Vec2.add_x, Vec2.add_y] at hx hy
  ext
  · simpa [FastTileMapDescriptor.cornerLow, FastTileMapDescriptor.cornerHigh] using
      min4_max4_sum d.corner00.x d.corner10.x d.corner01.x d.corner11.x hx
  · simpa [FastTileMapDescriptor.cornerLow, FastTileMapDescriptor.cornerHigh] using
      min4_max4_sum d.corner00.y d.corner10.y d.corner01.y d.corner11.y hy

/-- Claim C9: after construction, for a map with a non-singular projection, the
projections of the two opposite grid corners (0,0) and (size.x,size.y) under
map_to_world are symmetric about the world origin; the rational model makes the
specified equality within floating-point epsilon exact. -/
theorem map_to_world_grid_corner_symmetry (d : FastTileMapDescriptor)
    (h : d.projection.det ≠ 0) :
    d.spawn.1.map_to_world ⟨0, 0⟩ =
      -(d.spawn.1.map_to_world ⟨(d.map_size.x : ℚ), (d.map_size.y : ℚ)⟩) := by
  have hs := cornerLow_add_cornerHigh d
  have hsx := congrArg Vec2.x hs
  have hsy := congrArg Vec2.y hs
  simp only [Vec2.add_x, Vec2.add_y] at hsx hsy
  rw [spawn_map_to_world, spawn_map_to_world, spawn_world_offset]
  have e0 : d.preMap.map_to_world ⟨0, 0⟩ = d.corner00 := rfl
  have e1 : d.preMap.map_to_world ⟨(d.map_size.x : ℚ), (d.map_size.y : ℚ)⟩ = d.corner11 := rfl
  rw [e0, e1]
  ext <;> simp <;> linarith

/-- Modelled from the spec: the AXONOMETRIC projection constant of the crate,
absent from the provided sources; an axonometric diamond projection sending the
two grid axes to the two diagonals (the example notes each tile becomes a
diamond twice as wide as high once scaled by its 256 x 128 tile size), with
columns (1/2, 1/2) and (-1/2, 1/2). -/
def AXONOMETRIC : Mat2 := ⟨⟨1/2, 1/2⟩, ⟨-(1/2), 1/2⟩⟩

/-- The scenario map of the specification: a 100 x 100 grid of 256 x 128 tiles
under the axonometric projection, no padding, zero anchor. -/
def dScenario : FastTileMapDescriptor :=
  { map_size := ⟨100, 100⟩
    tile_size := ⟨256, 128⟩
    projection := AXONOMETRIC
    tile_anchor_point := ⟨0, 0⟩ }

theorem map_to_world_grid_corner_symmetry_witness :
    dScenario.projection.det ≠ 0 ∧
      dScenario.spawn.1.map_to_world ⟨0, 0⟩ =
        -(dScenario.spawn.1.map_to_world
            ⟨(dScenario.map_size.x : ℚ), (dScenario.map_size.y : ℚ)⟩) :=
  ⟨by norm_num [dScenario, AXONOMETRIC, Mat2.det],
    map_to_world_grid_corner_symmetry dScenario
      (by norm_num [dScenario, AXONOMETRIC, Mat2.det])⟩

/-- A descriptor whose projection matrix is identically zero, hence has
determinant 0. -/
def dSingular : FastTileMapDescriptor :=
  { map_size := ⟨3, 3⟩
    tile_size := ⟨16, 16⟩
    projection := ⟨⟨0, 0⟩, ⟨0, 0⟩⟩
    tile_anchor_point := ⟨0, 0⟩ }

/-- Claim C3 fails on the code: spawn in src/bundle.rs performs no projection
validation whatsoever - it unconditionally computes the unchecked matrix
inverse (line 64) and goes on to allocate the tile-index texture and produce a
map; nothing in the construction path can report a ConfigurationError.  Here a
determinant-0 projection still yields a spawned map with its full 3 x 3 = 9
cell storage allocated. -/
theorem spawn_accepts_singular_projection :
    dSingular.projection.det = 0 ∧
      dSingular.spawn.1.size = (⟨3, 3⟩ : IVec2) ∧
      dSingular.spawn.1.map_texture.length = 9 := by
  refine ⟨by norm_num [dSingular, Mat2.det], rfl, ?_⟩
  simp [spawn_map_texture, dSingular]

/-- Claim C3 (amended): construction never rejects a degenerate projection;
for any descriptor whose projection has determinant 0, spawn still produces a
map carrying the requested size, a fully allocated tile storage and the
unchecked inverse of the singular projection. -/
theorem spawn_total_on_singular_projection (d : FastTileMapDescriptor)
    (h : d.projection.det = 0) :
    d.spawn.1.size = d.map_size ∧
      d.spawn.1.ready = false ∧
      d.spawn.1.projection = d.projection ∧
      d.spawn.1.inverse_projection = d.projection.inverse ∧
      d.spawn.1.map_texture.length = (d.map_size.x * d.map_size.y).toNat := by
  exact ⟨rfl, rfl, rfl, rfl, by simp [spawn_map_texture]⟩

theorem spawn_total_on_singular_projection_witness :
    dSingular.projection.det = 0 ∧
      (dSingular.spawn.1.size = dSingular.map_size ∧
        dSingular.spawn.1.ready = false ∧
        dSingular.spawn.1.projection = dSingular.projection ∧
        dSingular.spawn.1.inverse_projection = dSingular.projection.inverse ∧
        dSingular.spawn.1.map_texture.length =
          (dSingular.map_size.x * dSingular.map_size.y).toNat) :=
  ⟨by norm_num [dSingular, Mat2.det],
    spawn_total_on_singular_projection dSingular (by norm_num [dSingular, Mat2.det])⟩

/-- A descriptor with a zero grid dimension. -/
def dZeroWidth : FastTileMapDescriptor :=
  { map_size := ⟨0, 5⟩
    tile_size := ⟨16, 16⟩
    projection := ⟨⟨1, 0⟩, ⟨0, -1⟩⟩
    tile_anchor_point := ⟨0, 0⟩ }

/-- Claim C6 fails on the code: spawn in src/bundle.rs never checks the grid
dimensions - it casts them to u32 and allocates the texture buffer directly, so
a zero-sized map is accepted without any ConfigurationError and construction
succeeds with an empty storage rather than failing. -/
theorem spawn_accepts_zero_dimensions :
    dZeroWidth.map_size.x = 0 ∧
      dZeroWidth.spawn.1.size = (⟨0, 5⟩ : IVec2) ∧
      dZeroWidth.spawn.1.map_texture = [] := by
  exact ⟨rfl, rfl, by simp [spawn_map_texture, dZeroWidth]⟩

/-- Claim C6 (amended): construction performs no validation of the grid
dimensions; a descriptor with a zero dimension is accepted without error and
spawns a map with the requested (degenerate) size and an empty tile storage. -/
theorem spawn_no_dimension_validation (d : FastTileMapDescriptor)
    (h : d.map_size.x = 0 ∨ d.map_size.y = 0) :
    d.spawn.1.size = d.map_size ∧
      d.spawn.1.ready = false ∧
      d.spawn.1.map_texture = [] := by
  refine ⟨rfl, rfl, ?_⟩
  rcases h with h | h <;> simp [spawn_map_texture, h]

theorem spawn_no_dimension_validation_witness :
    (dZeroWidth.map_size.x = 0 ∨ dZeroWidth.map_size.y = 0) ∧
      (dZeroWidth.spawn.1.size = dZeroWidth.map_size ∧
        dZeroWidth.spawn.1.ready = false ∧
        dZeroWidth.spawn.1.map_texture = []) :=
  ⟨by decide, spawn_no_dimension_validation dZeroWidth (by decide)⟩

theorem Mat2.inverse_mulVec_cancel (m : Mat2) (h : m.det ≠ 0) (v : Vec2) :
    m.inverse.mulVec (m.mulVec v) = v := by
  simp only [Mat2.det] at h
  ext <;> simp [Mat2.inverse, Mat2.mulVec, Mat2.det] <;> field_simp <;> ring

theorem Mat2.mulVec_inverse_cancel (m : Mat2) (h : m.det ≠ 0) (v : Vec2) :
    m.mulVec (m.inverse.mulVec v) = v := by
  simp only [Mat2.det] at h
  ext <;> simp [Mat2.inverse, Mat2.mulVec, Mat2.det] <;> field_simp <;> ring

theorem Map.round_trip_general (m : Map) (hdet : m.projection.det ≠ 0)
    (hinv : m.inverse_projection = m.projection.inverse)
    (hx : m.tile_size.x ≠ 0) (hy : m.tile_size.y ≠ 0) :
    (∀ g : Vec2, m.world_to_map (m.map_to_world g) = g) ∧
      (∀ p : Vec2, m.map_to_world (m.world_to_map p) = p) := by
  constructor
  · intro g
    rw [Map.map_to_world, Map.world_to_map, hinv]
    have hc :
        m.projection.mulVec ((g - m.tile_anchor_point) * m.tile_size) + m.world_offset -
            m.world_offset =
          m.projection.mulVec ((g - m.tile_anchor_point) * m.tile_size) := by
      ext <;> simp
    rw [hc, Mat2.inverse_mulVec_cancel m.projection hdet]
    ext
    · simp; field_simp
    · simp; field_simp
  · intro p
    rw [Map.world_to_map, Map.map_to_world, hinv]
    have hc :
        (m.projection.inverse.mulVec (p - m.world_offset) / m.tile_size +
              m.tile_anchor_point - m.tile_anchor_point) * m.tile_size =
          m.projection.inverse.mulVec (p - m.world_offset) := by
      ext
      · simp; field_simp
      · simp; field_simp
    rw [hc, Mat2.mulVec_inverse_cancel m.projection hdet]
    ext <;> simp

/-- Claim C4 fails as universally stated: the round trip breaks on a map whose
tile_size has a zero component, even with an invertible (identity-like)
projection and a grid point strictly inside the grid.  With tile_size = (0,0)
every grid point projects to the same world point, so world_to_map cannot
recover g: at g = (1,1), strictly inside the 2 x 2 grid, the round trip
returns (0,0). -/
def dZeroTile : FastTileMapDescriptor :=
  { map_size := ⟨2, 2⟩
    tile_size := ⟨0, 0⟩
    projection := ⟨⟨1, 0⟩, ⟨0, 1⟩⟩
    tile_anchor_point := ⟨0, 0⟩ }

theorem round_trip_fails_on_zero_tile_size :
    dZeroTile.projection.det ≠ 0 ∧
      (0 < (1 : ℚ) ∧ (1 : ℚ) < (dZeroTile.map_size.x : ℚ) ∧
        0 < (1 : ℚ) ∧ (1 : ℚ) < (dZeroTile.map_size.y : ℚ)) ∧
      dZeroTile.spawn.1.world_to_map (dZeroTile.spawn.1.map_to_world ⟨1, 1⟩) ≠
        (⟨1, 1⟩ : Vec2) := by
  refine ⟨by norm_num [dZeroTile, Mat2.det], ⟨by norm_num, ?_, by norm_num, ?_⟩, ?_⟩
  · norm_num [dZeroTile]
  · norm_num [dZeroTile]
  · have hred :
        dZeroTile.spawn.1.world_to_map (dZeroTile.spawn.1.map_to_world ⟨1, 1⟩) =
          (⟨0, 0⟩ : Vec2) := by
      ext <;>
        norm_num [spawn_eval, dZeroTile, Map.map_to_world, Map.world_to_map,
          FastTileMapDescriptor.preMap, FastTileMapDescriptor.cornerLow,
          FastTileMapDescriptor.cornerHigh, FastTileMapDescriptor.corner00,
          FastTileMapDescriptor.corner10, FastTileMapDescriptor.corner01,
          FastTileMapDescriptor.corner11, Mat2.mulVec, Mat2.inverse, Mat2.det,
          Vec2.vmin, Vec2.vmax]
    rw [hred]
    norm_num [Vec2.mk.injEq]

/-- Claim C4 (amended): for every map constructed from a descriptor with an
invertible projection and nonzero tile-size components, both round trips hold
exactly in the rational model (hence within any floating-point epsilon): for
every grid coordinate g, world_to_map(map_to_world(g)) = g, and for every
world point p, map_to_world(world_to_map(p)) = p. -/
theorem round_trip_exact (d : FastTileMapDescriptor)
    (hdet : d.projection.det ≠ 0) (hx : d.tile_size.x ≠ 0) (hy : d.tile_size.y ≠ 0) :
    (∀ g : Vec2, d.spawn.1.world_to_map (d.spawn.1.map_to_world g) = g) ∧
      (∀ p : Vec2, d.spawn.1.map_to_world (d.spawn.1.world_to_map p) = p) :=
  Map.round_trip_general d.spawn.1 hdet (spawn_inverse_projection d) hx hy

theorem round_trip_exact_witness :
    (dOrtho.projection.det ≠ 0 ∧ dOrtho.tile_size.x ≠ 0 ∧ dOrtho.tile_size.y ≠ 0) ∧
      ((∀ g : Vec2, dOrtho.spawn.1.world_to_map (dOrtho.spawn.1.map_to_world g) = g) ∧
        (∀ p : Vec2, dOrtho.spawn.1.map_to_world (dOrtho.spawn.1.world_to_map p) = p)) :=
  ⟨⟨by norm_num [dOrtho, Mat2.det], by norm_num [dOrtho], by norm_num [dOrtho]⟩,
    round_trip_exact dOrtho (by norm_num [dOrtho, Mat2.det])
      (by norm_num [dOrtho]) (by norm_num [dOrtho])⟩

/-- The error taxonomy of the specification (sec. 7).  Only OutOfBoundsAccess
is reachable in this development: as proved above, the construction path of
src/bundle.rs can never report a ConfigurationError. -/
inductive MapError where
  | OutOfBoundsAccess
  | ConfigurationError
  | NotReadyError
  | AssetLoadFailure
deriving DecidableEq

/-- Modelled from the spec: the MapIndexer of the crate's map.rs, absent from
the provided sources (sec. 4.3): a scoped exclusive cursor over a map's
tile-index storage, carrying the grid dimensions and the cell contents in
row-major order. -/
structure MapIndexer where
  width : ℕ
  height : ℕ
  data : List ℕ
deriving DecidableEq

/-- Modelled from the spec: acquiring an indexer for a map exposes the grid
dimensions (for callers to bound their iteration) and the exclusively owned
tile-index storage. -/
def Map.indexer (m : Map) : MapIndexer :=
  ⟨m.size.x.toNat, m.size.y.toNat, m.map_texture⟩

/-- Modelled from the spec: MapIndexer::get (sec. 4.3): bounds-checked read of
the tile index at (x, y); any coordinate outside [0,width) x [0,height) is a
reported OutOfBoundsAccess error, never a wrapped, clamped or silently
successful access. -/
def MapIndexer.get (i : MapIndexer) (x y : ℕ) : Except MapError ℕ :=
  if x < i.width ∧ y < i.height then .ok (i.data.getD (y * i.width + x) 0)
  else .error .OutOfBoundsAccess

/-- Modelled from the spec: MapIndexer::set (sec. 4.3): bounds-checked write of
a tile index at (x, y); the storage cell is a 16-bit unsigned integer, so the
stored value is the index reduced to 16 bits; any coordinate outside the grid
is a reported OutOfBoundsAccess error. -/
def MapIndexer.set (i : MapIndexer) (x y v : ℕ) : Except MapError MapIndexer :=
  if x < i.width ∧ y < i.height then
    .ok { i with data := i.data.set (y * i.width + x) (v % 65536) }
  else .error .OutOfBoundsAccess

/-- Claim C5: for every map, indexer reads and writes at x = width or
y = height (one past the valid range) and more generally at any coordinate
outside [0,width) x [0,height) report OutOfBoundsAccess; they never wrap,
clamp or silently succeed. -/
theorem indexer_out_of_bounds_reported (m : Map) (x y : ℕ)
    (h : m.indexer.width ≤ x ∨ m.indexer.height ≤ y) :
    m.indexer.get x y = .error .OutOfBoundsAccess ∧
      ∀ v, m.indexer.set x y v = .error .OutOfBoundsAccess := by
  constructor
  · rw [MapIndexer.get, if_neg (by omega)]
  · intro v
    rw [MapIndexer.set, if_neg (by omega)]

theorem indexer_out_of_bounds_reported_witness :
    (dOrtho.spawn.1.indexer.width ≤ 4 ∨ dOrtho.spawn.1.indexer.height ≤ 0) ∧
      (dOrtho.spawn.1.indexer.get 4 0 = .error .OutOfBoundsAccess ∧
        ∀ v, dOrtho.spawn.1.indexer.set 4 0 v = .error .OutOfBoundsAccess) :=
  ⟨by decide, indexer_out_of_bounds_reported dOrtho.spawn.1 4 0 (by decide)⟩

theorem replicate_getD_zero (n i : ℕ) : (List.replicate n (0 : ℕ)).getD i 0 = 0 := by
  rw [List.getD]
  cases Nat.lt_or_ge i n with
  | inl h => simp [List.get?_eq_getElem?, List.getElem?_replicate, h]
  | inr h =>
    have hlen : (List.replicate n (0 : ℕ)).length ≤ i := by simpa using h
    simp [List.get?_eq_getElem?, List.getElem?_eq_none hlen]

/-- Claim C7: a constructed map's tile-index storage has exactly
size.x * size.y cells, each one a 16-bit unsigned value (so every stored tile
index is below 65536), and every indexer write preserves both the cell count
and the 16-bit bound. -/
theorem tile_storage_cell_count_invariant (d : FastTileMapDescriptor)
    (hx : 1 ≤ d.map_size.x) (hy : 1 ≤ d.map_size.y) :
    d.spawn.1.map_texture.length = d.map_size.x.toNat * d.map_size.y.toNat ∧
      (∀ c ∈ d.spawn.1.map_texture, c < 65536) ∧
      ∀ (i : MapIndexer) (x y v : ℕ) (i2 : MapIndexer), i.set x y v = .ok i2 →
        i2.data.length = i.data.length ∧
          ((∀ c ∈ i.data, c < 65536) → ∀ c ∈ i2.data, c < 65536) := by
  refine ⟨?_, ?_, ?_⟩
  · rw [spawn_map_texture, List.length_replicate]
    rcases Int.eq_ofNat_of_zero_le (le_trans zero_le_one hx) with ⟨m, hm⟩
    rcases Int.eq_ofNat_of_zero_le (le_trans zero_le_one hy) with ⟨n, hn⟩
    rw [hm, hn, ← Int.natCast_mul, Int.toNat_natCast, Int.toNat_natCast, Int.toNat_natCast]
  · intro c hc
    rw [spawn_map_texture] at hc
    have := List.eq_of_mem_replicate hc
    omega
  · intro i x y v i2 hset
    rw [MapIndexer.set] at hset
    split_ifs at hset with hin
    · simp only [Except.ok.injEq] at hset
      subst hset
      refine ⟨by simp, ?_⟩
      intro hall c hc
      rcases List.mem_or_eq_of_mem_set hc with hmem | hmod
      · exact hall c hmem
      · subst hmod
        exact Nat.mod_lt _ (by norm_num)

theorem tile_storage_cell_count_invariant_witness :
    ((1 : ℤ) ≤ dOrtho.map_size.x ∧ (1 : ℤ) ≤ dOrtho.map_size.y) ∧
      (dOrtho.spawn.1.map_texture.length =
          dOrtho.map_size.x.toNat * dOrtho.map_size.y.toNat ∧
        (∀ c ∈ dOrtho.spawn.1.map_texture, c < 65536) ∧
        ∀ (i : MapIndexer) (x y v : ℕ) (i2 : MapIndexer), i.set x y v = .ok i2 →
          i2.data.length = i.data.length ∧
            ((∀ c ∈ i.data, c < 65536) → ∀ c ∈ i2.data, c < 65536)) :=
  ⟨⟨by decide, by decide⟩,
    tile_storage_cell_count_invariant dOrtho (by decide) (by decide)⟩

/-- Claim C10: immediately after construction every tile-index cell of the
newly allocated storage is 0, and an in-range indexer read returns 0 before any
initializer or indexer write has happened. -/
theorem fresh_map_tiles_zero (d : FastTileMapDescriptor) (x y : ℕ)
    (hx : x < d.spawn.1.indexer.width) (hy : y < d.spawn.1.indexer.height) :
    (∀ c ∈ d.spawn.1.map_texture, c = 0) ∧
      d.spawn.1.indexer.get x y = .ok 0 := by
  constructor
  · intro c hc
    rw [spawn_map_texture] at hc
    exact List.eq_of_mem_replicate hc
  · rw [MapIndexer.get, if_pos ⟨hx, hy⟩]
    have hdata : d.spawn.1.indexer.data = List.replicate (d.map_size.x * d.map_size.y).toNat 0 :=
      spawn_map_texture d
    rw [hdata, replicate_getD_zero]

theorem fresh_map_tiles_zero_witness :
    (2 < dOrtho.spawn.1.indexer.width ∧ 1 < dOrtho.spawn.1.indexer.height) ∧
      ((∀ c ∈ dOrtho.spawn.1.map_texture, c = 0) ∧
        dOrtho.spawn.1.indexer.get 2 1 = .ok 0) :=
  ⟨⟨by decide, by decide⟩,
    fresh_map_tiles_zero dOrtho 2 1 (by decide) (by decide)⟩

/-- A map together with the bookkeeping of its loading lifecycle: how many
times the caller-supplied initializer callback has been invoked. -/
structure MapLoading where
  map : Map
  initializerRuns : ℕ

/-- Construction registers the spawned map in the loading state: spawn in
src/bundle.rs sets ready = false, and no initializer has run yet. -/
def FastTileMapDescriptor.construct (d : FastTileMapDescriptor) : MapLoading :=
  ⟨d.spawn.1, 0⟩

/-- Modelled from the spec: update_loading_maps, the per-frame readiness poll
named by src/plugin.rs but defined in the crate's map.rs, which is absent from
the provided sources (sec. 4.4): each frame, if the map is not yet ready and
its backing assets report fully loaded, invoke the initializer callback once on
an indexer over the storage, write the resulting cells back, and flip
ready = true; in every other case leave the state unchanged (in particular a
ready map never runs the initializer again). -/
def update_loading_maps (s : MapLoading) (assetsLoaded : Bool)
    (init : MapIndexer → MapIndexer) : MapLoading :=
  if s.map.ready then s
  else if assetsLoaded then
    ⟨{ s.map with ready := true, map_texture := (init s.map.indexer).data },
      s.initializerRuns + 1⟩
  else s

/-- Claim C8: immediately after construction a map has ready = false and its
initializer has not been invoked; while the backing textures are still loading
the poll changes nothing, and once they finish loading ready becomes true with
the initializer invoked exactly once - later polls never invoke it again. -/
theorem readiness_gating (d : FastTileMapDescriptor) (init : MapIndexer → MapIndexer) :
    d.construct.map.ready = false ∧
      d.construct.initializerRuns = 0 ∧
      (update_loading_maps d.construct false init).map.ready = false ∧
      (update_loading_maps d.construct false init).initializerRuns = 0 ∧
      (update_loading_maps d.construct true init).map.ready = true ∧
      (update_loading_maps d.construct true init).initializerRuns = 1 ∧
      ∀ (b : Bool) (init2 : MapIndexer → MapIndexer),
        (update_loading_maps (update_loading_maps d.construct true init) b
            init2).initializerRuns = 1 := by
  have hr : d.spawn.1.ready = false := spawn_ready d
  refine ⟨hr, rfl, ?_, ?_, ?_, ?_, ?_⟩ <;>
    simp [update_loading_maps, FastTileMapDescriptor.construct, hr]
